import Mathlib

/-!
Shallow embedding of the carousel widget repository.

The repository contains two parallel carousel implementations:

* the TypeScript component in src/unnamed/part_000 (namespace TS), whose
  clampIndex wraps a negative index to total minus one and an index at or
  above total to zero, and whose gesture recogniser compares the
  horizontal and vertical drag magnitudes;
* the JSX component in src/carousel_frontend/src/components/Carousel.jsx
  (namespace JSX), whose clampIndex clamps into the valid range without
  wrapping and whose pointer-up handler looks only at the horizontal
  delta.

Further embedded pieces: the audit sinks of src/unnamed/part_003
(namespace AuditTs) and src/carousel_frontend/src/utils/audit.js
(namespace AuditJsx), the autoplay timer lifecycle of the TypeScript
component (namespace Autoplay), and the slide sanitizer of
src/carousel_frontend/src/data/slides.js (namespace SlidesJs).
-/

namespace TS

/-- Events emitted to the event sink by the TypeScript carousel: the
slide-change event logged by goTo with metadata from, to and cause, and
the image error event logged by onImageError. -/
inductive Ev where
  | slideChange (fromIdx toIdx : Int) (cause : String)
  | imageError (slideId : String)
deriving DecidableEq, Repr

/-- Navigation state of the TypeScript carousel: the slide count (total,
from slides.length) and the active index state variable. -/
structure CState where
  total : Nat
  activeIndex : Int
deriving DecidableEq, Repr

/-- clampIndex from src/unnamed/part_000: a negative index becomes
total minus one, an index at or above total becomes zero, anything in
between is returned unchanged. -/
def clampIndex (total : Nat) (index : Int) : Int :=
  if index < 0 then (total : Int) - 1
  else if (total : Int) ≤ index then 0
  else index

/-- goTo from src/unnamed/part_000: clamps the requested index; the state
updater logs a single slide-change event exactly when the clamped index
differs from the previous one, and the active index becomes the clamped
index either way. -/
def goTo (s : CState) (index : Int) (cause : String) : CState × List Ev :=
  let nxt := clampIndex s.total index
  if s.activeIndex ≠ nxt then
    ({ s with activeIndex := nxt }, [Ev.slideChange s.activeIndex nxt cause])
  else (s, [])

/-- next from src/unnamed/part_000: goTo at activeIndex plus one. -/
def next (s : CState) (cause : String) : CState × List Ev :=
  goTo s (s.activeIndex + 1) cause

/-- prev from src/unnamed/part_000: goTo at activeIndex minus one. -/
def prev (s : CState) (cause : String) : CState × List Ev :=
  goTo s (s.activeIndex - 1) cause

/-- Release decision of useSwipe.onTouchEnd in src/unnamed/part_000 for a
drag with horizontal delta dx and vertical delta dy: when the horizontal
magnitude strictly exceeds both the vertical magnitude and the threshold,
a negative dx triggers the onSwipeLeft handler (next with cause swipe)
and a non-negative dx triggers onSwipeRight (prev with cause swipe);
otherwise no navigation happens. The default threshold is 30. -/
def touchEnd (s : CState) (threshold dx dy : Int) : CState × List Ev :=
  if |dx| > |dy| ∧ |dx| > threshold then
    if dx < 0 then next s "swipe" else prev s "swipe"
  else (s, [])

/-- The imageErrors record update of onImageError in src/unnamed/part_000,
viewed as the set of slide ids mapped to true: spreading the previous
record and setting the key id to true. -/
def addError (l : List String) (id : String) : List String :=
  if id ∈ l then l else l ++ [id]

/-- Image-failure state of the TypeScript carousel: the set of failed
slide ids. -/
structure ImgState where
  failed : List String
deriving DecidableEq, Repr

/-- onImageError from src/unnamed/part_000: records the failed slide id
in the imageErrors state and logs one image error event on every call,
with no deduplication. -/
def onImageError (s : ImgState) (id : String) : ImgState × List Ev :=
  (⟨addError s.failed id⟩, [Ev.imageError id])

/-- Slide record of the TypeScript component. -/
structure Slide where
  id : String
  title : String
  caption : Option String
  imageSrc : String
  alt : String
deriving DecidableEq, Repr

/-- Autoplay prop of the TypeScript component; both fields may be absent
from the supplied object. -/
structure AutoplayProp where
  enabled : Option Bool
  intervalMs : Option Int
deriving DecidableEq, Repr

/-- Errors thrown at construction time of the TypeScript component. The
design document calls them InvalidConfiguration. -/
inductive CarouselError where
  | invalidConfiguration (msg : String)
deriving DecidableEq, Repr

/-- Validation at the top of the TypeScript Carousel component
(src/unnamed/part_000): an empty slide array throws, and a numeric
non-positive interval with autoplay enabled throws; otherwise the
navigation state starts at active index 0. -/
def constructCarousel (slides : List Slide) (autoplay : AutoplayProp) :
    Except CarouselError CState :=
  if slides.length = 0 then
    .error (.invalidConfiguration
      "Carousel: \"slides\" is required and must be a non-empty array.")
  else if autoplay.enabled.getD false &&
      autoplay.intervalMs.elim false (fun v => decide (v ≤ 0)) then
    .error (.invalidConfiguration
      "Carousel: \"autoplay.intervalMs\" must be > 0 when autoplay is enabled.")
  else
    .ok ⟨slides.length, 0⟩

end TS

namespace AuditTs

/-- Audit event shape built by logUIEvent in src/unnamed/part_003. -/
structure AuditEvent where
  eventName : String
  action : String
deriving DecidableEq, Repr

/-- logUIEvent from src/unnamed/part_003: builds the event and calls
console.log with no try/catch around it, so a failing console call
escapes to the caller. The outcome of the console call is threaded in as
a flag. -/
def logUIEvent (consoleLogFails : Bool) (eventName action : String) :
    Except String AuditEvent :=
  if consoleLogFails then .error "console.log threw"
  else .ok ⟨eventName, action⟩

end AuditTs

namespace AuditJsx

/-- logAuditEvent from src/carousel_frontend/src/utils/audit.js: the
console.info call sits inside a try block whose catch calls
console.error. A failure of console.info is swallowed; only a failure of
the fallback console.error call itself escapes. -/
def logAuditEvent (infoFails errorFails : Bool) : Except String Unit :=
  if infoFails then
    if errorFails then .error "console.error threw" else .ok ()
  else .ok ()

end AuditJsx

namespace TS

/-- goTo from src/unnamed/part_000 with the console effect of its
logUIEvent call made explicit: when the clamped index differs from the
current one the sink is invoked, and since nothing in goTo catches, a
sink failure aborts the state update. -/
def goToE (s : CState) (index : Int) (cause : String)
    (consoleLogFails : Bool) : Except String CState :=
  let nxt := clampIndex s.total index
  if s.activeIndex ≠ nxt then
    match AuditTs.logUIEvent consoleLogFails "carousel_slide_change" cause with
    | .error e => .error e
    | .ok _ => .ok { s with activeIndex := nxt }
  else .ok s

end TS

namespace Autoplay

/-- Effective enablement from the cfg memo in src/unnamed/part_000:
autoplay enabled and the reduced-motion preference not set. -/
def effectiveEnabled (autoplayEnabled prefersReducedMotion : Bool) : Bool :=
  autoplayEnabled && !prefersReducedMotion

/-- Autoplay lifecycle state of the TypeScript component: the effective
enablement and pause flags read by the effect, whether a timeout is
pending (timerRef holds a timer), the navigation state, and the trace of
events emitted to the sink. -/
structure St where
  cfgEnabled : Bool
  isPaused : Bool
  timer : Bool
  nav : TS.CState
  events : List TS.Ev
deriving DecidableEq, Repr

/-- Body of the autoplay useEffect in src/unnamed/part_000: returns
early when not effectively enabled or paused, otherwise arms a one-shot
timeout. -/
def effect (s : St) : St :=
  if s.cfgEnabled && !s.isPaused then { s with timer := true } else s

/-- Cleanup function returned by the autoplay useEffect: clears any
pending timeout. React runs it on unmount and before re-running the
effect. -/
def cleanup (s : St) : St :=
  { s with timer := false }

/-- Unmount runs the effect cleanup. -/
def unmount (s : St) : St := cleanup s

/-- Elapse of the scheduled interval: a pending timeout fires next with
cause auto and is spent; with no pending timeout nothing happens and no
event is emitted. -/
def elapse (s : St) : St :=
  if s.timer then
    { s with
      timer := false
      nav := (TS.next s.nav "auto").1
      events := s.events ++ (TS.next s.nav "auto").2 }
  else s

end Autoplay

namespace JSX

/-- Slide-change audit event built by logSlideChange in
src/carousel_frontend/src/utils/audit.js: metadata carries the before
and after indices and the slide count, with no cause field. -/
structure SlideChangeEv where
  beforeIndex : Int
  afterIndex : Int
  totalSlides : Nat
deriving DecidableEq, Repr

/-- Navigation state of the JSX carousel. -/
structure JState where
  total : Nat
  activeIndex : Int
deriving DecidableEq, Repr

/-- clampIndex from src/carousel_frontend/src/components/Carousel.jsx:
the maximum of 0 and the minimum of the index and slides.length minus
one. It clamps rather than wraps. -/
def clampIndex (total : Nat) (idx : Int) : Int :=
  max 0 (min idx ((total : Int) - 1))

/-- goTo from src/carousel_frontend/src/components/Carousel.jsx: clamps
the requested index and logs one slide-change audit event exactly when
the clamped index differs from the previous one. -/
def goTo (s : JState) (nextIdx : Int) : JState × List SlideChangeEv :=
  let clamped := clampIndex s.total nextIdx
  if clamped ≠ s.activeIndex then
    ({ s with activeIndex := clamped }, [⟨s.activeIndex, clamped, s.total⟩])
  else (s, [])

/-- next from src/carousel_frontend/src/components/Carousel.jsx. -/
def next (s : JState) : JState × List SlideChangeEv :=
  goTo s (s.activeIndex + 1)

/-- prev from src/carousel_frontend/src/components/Carousel.jsx. -/
def prev (s : JState) : JState × List SlideChangeEv :=
  goTo s (s.activeIndex - 1)

/-- Initial active index from the useState initialiser in
src/carousel_frontend/src/components/Carousel.jsx: the requested start
index when it is a finite number inside the valid range, and 0 in every
other case. -/
def initActiveIndex (total : Nat) (startIndex : Int) : Int :=
  if 0 ≤ startIndex ∧ startIndex < (total : Int) then startIndex else 0

/-- onPointerUp from src/carousel_frontend/src/components/Carousel.jsx:
commits a navigation whenever the magnitude of the horizontal delta
exceeds the 40 pixel threshold, regardless of any vertical movement (the
handler never reads a vertical delta); otherwise it snaps back without
touching the index. -/
def pointerUp (s : JState) (delta : Int) : JState × List SlideChangeEv :=
  if |delta| > 40 then
    if delta < 0 then next s else prev s
  else (s, [])

end JSX

/-- Navigation operations used to state invariance over arbitrary call
sequences. -/
inductive NavOp where
  | next
  | prev
deriving DecidableEq, Repr

namespace TS

/-- Run a sequence of next and prev calls on the TypeScript carousel
state. -/
def runOps (s : CState) : List NavOp → CState
  | [] => s
  | NavOp.next :: rest => runOps (next s "arrow").1 rest
  | NavOp.prev :: rest => runOps (prev s "arrow").1 rest

/-- Iterate next k times on the TypeScript carousel state. -/
def nextN (s : CState) : Nat → CState
  | 0 => s
  | k + 1 => nextN (next s "auto").1 k

end TS

namespace JSX

/-- Run a sequence of next and prev calls on the JSX carousel state. -/
def runOps (s : JState) : List NavOp → JState
  | [] => s
  | NavOp.next :: rest => runOps (next s).1 rest
  | NavOp.prev :: rest => runOps (prev s).1 rest

/-- Iterate next k times on the JSX carousel state. -/
def nextN (s : JState) : Nat → JState
  | 0 => s
  | k + 1 => nextN (next s).1 k

end JSX

namespace SlidesJs

/-- JavaScript values as far as the slide sanitizer distinguishes them. -/
inductive JSVal where
  | null
  | undefined
  | bool (b : Bool)
  | num (n : Int)
  | str (s : String)
  | obj (fields : List (String × JSVal))
  | arr (elems : List JSVal)

/-- JavaScript truthiness of a value. -/
def truthy : JSVal → Bool
  | .null => false
  | .undefined => false
  | .bool b => b
  | .num n => decide (n ≠ 0)
  | .str s => decide (s ≠ "")
  | .obj _ => true
  | .arr _ => true

/-- The typeof test against the string object: true for objects, arrays
and null. -/
def isObjectType : JSVal → Bool
  | .null => true
  | .obj _ => true
  | .arr _ => true
  | _ => false

/-- The filter predicate of validateSlides: the element is truthy and of
object type. -/
def keep (v : JSVal) : Bool := truthy v && isObjectType v

/-- Whether the value is an array (Array.isArray). -/
def isArr : JSVal → Bool
  | .arr _ => true
  | _ => false

/-- Property read on a JavaScript value: a key lookup on an object,
undefined everywhere else. -/
def getField : JSVal → String → JSVal
  | .obj fields, k => ((fields.find? (fun p => p.1 == k)).map Prod.snd).getD .undefined
  | _, _ => .undefined

/-- Sanitized slide record produced by validateSlides. -/
structure SlideRec where
  id : String
  title : String
  description : String
  image : String
  alt : String
deriving DecidableEq, Repr

/-- The fallback slide of validateSlides, used when the input is not an
array. -/
def fallback : SlideRec :=
  ⟨"fallback", "Unavailable", "Content could not be loaded.",
    "/images/placeholder.jpg", "Placeholder image"⟩

/-- Model of the JavaScript trim method used by the sanitizer: removes
whitespace characters from both ends of the string. -/
def jsTrim (s : String) : String :=
  ⟨((s.data.dropWhile Char.isWhitespace).reverse.dropWhile Char.isWhitespace).reverse⟩

/-- The test typeof x is string and x.trim() is truthy, returning the
original untrimmed string when it passes. -/
def strTest : JSVal → Option String
  | .str s => if jsTrim s ≠ "" then some s else none
  | _ => none

/-- The per-element mapping of validateSlides, with idx the position in
the filtered array: each field falls back to a default when the
corresponding property is not a string or is blank after trimming. The
id field keeps the original untrimmed string; the others are trimmed. -/
def mkSlide (idx : Nat) (s : JSVal) : SlideRec :=
  let title := (strTest (getField s "title")).elim "Untitled" (fun t => jsTrim t)
  { id := (strTest (getField s "id")).elim ("slide-" ++ toString idx) (fun t => t)
    title := title
    description := (strTest (getField s "description")).elim
      "No description provided." (fun t => jsTrim t)
    image := (strTest (getField s "image")).elim
      "/images/placeholder.jpg" (fun t => jsTrim t)
    alt := (strTest (getField s "alt")).elim (title ++ " image") (fun t => jsTrim t) }

/-- The map with element index used by validateSlides on the filtered
array. -/
def mapWithIndex (f : Nat → JSVal → SlideRec) : Nat → List JSVal → List SlideRec
  | _, [] => []
  | i, v :: vs => f i v :: mapWithIndex f (i + 1) vs

/-- validateSlides from src/carousel_frontend/src/data/slides.js: a
non-array input yields the single fallback slide; an array is filtered
down to its truthy object-typed elements and each survivor is sanitized
with its position in the filtered array as index. -/
def validateSlides : JSVal → List SlideRec
  | .arr items => mapWithIndex mkSlide 0 (items.filter keep)
  | _ => [fallback]

end SlidesJs

/-!
Helper lemmas shared by the claim theorems.
-/

namespace TS

theorem goTo_fst (s : CState) (i : Int) (c : String) :
    (goTo s i c).1 = ⟨s.total, clampIndex s.total i⟩ := by
  cases s with
  | mk total activeIndex =>
    unfold goTo
    by_cases h : activeIndex = clampIndex total i <;> simp [h]

theorem goTo_snd (s : CState) (i : Int) (c : String) :
    (goTo s i c).2 =
      if s.activeIndex ≠ clampIndex s.total i then
        [Ev.slideChange s.activeIndex (clampIndex s.total i) c]
      else [] := by
  unfold goTo
  split <;> simp_all

theorem clampIndex_range (total : Nat) (i : Int) (h : 0 < total) :
    0 ≤ clampIndex total i ∧ clampIndex total i < (total : Int) := by
  unfold clampIndex
  split
  · omega
  · split <;> omega

end TS

namespace JSX

theorem jGoTo_fst (s : JState) (i : Int) :
    (goTo s i).1 = ⟨s.total, clampIndex s.total i⟩ := by
  cases s with
  | mk total activeIndex =>
    unfold goTo
    by_cases h : clampIndex total i = activeIndex <;> simp [h]

theorem jGoTo_snd (s : JState) (i : Int) :
    (goTo s i).2 =
      if clampIndex s.total i ≠ s.activeIndex then
        [⟨s.activeIndex, clampIndex s.total i, s.total⟩]
      else [] := by
  unfold goTo
  split <;> simp_all

theorem jClampIndex_range (total : Nat) (i : Int) (h : 0 < total) :
    0 ≤ clampIndex total i ∧ clampIndex total i < (total : Int) := by
  unfold clampIndex
  omega

end JSX

namespace TS

theorem next_fst (s : CState) (c : String) :
    (next s c).1 = ⟨s.total, clampIndex s.total (s.activeIndex + 1)⟩ :=
  goTo_fst s (s.activeIndex + 1) c

theorem nextN_eq (total : Nat) (hN : 0 < total) :
    ∀ (k : Nat) (i : Int), 0 ≤ i → i < (total : Int) →
      nextN ⟨total, i⟩ k = ⟨total, (i + k) % (total : Int)⟩ := by
  intro k
  induction k with
  | zero =>
    intro i h0 h1
    simp only [nextN, Nat.cast_zero, Int.add_zero]
    rw [Int.emod_eq_of_lt h0 h1]
  | succ k ih =>
    intro i h0 h1
    have hstep : nextN (⟨total, i⟩ : CState) (k + 1)
        = nextN ⟨total, clampIndex total (i + 1)⟩ k := by
      show nextN (next ⟨total, i⟩ "auto").1 k = _
      rw [next_fst]
    rw [hstep]
    by_cases hlt : i + 1 < (total : Int)
    · have hcl : clampIndex total (i + 1) = i + 1 := by
        unfold clampIndex
        split
        · omega
        · split <;> omega
      rw [hcl, ih (i + 1) (by omega) hlt]
      have : i + 1 + (k : Int) = i + ((k : Nat) + 1 : Nat) := by push_cast; ring
      rw [this]
    · have heq : i + 1 = (total : Int) := by omega
      have hcl : clampIndex total (i + 1) = 0 := by
        unfold clampIndex
        split
        · omega
        · split
          · rfl
          · omega
      rw [hcl, ih 0 le_rfl (by omega)]
      have h2 : (0 : Int) + (k : Int) = (k : Int) := by ring
      have h3 : i + ((k : Nat) + 1 : Nat) = (k : Int) + (total : Int) * 1 := by
        push_cast; omega
      rw [h2, h3, Int.add_mul_emod_self_left]

end TS

/-!
Claim theorems.
-/

/-- C1 counterexample: with N = 3 and activeIndex = 0, the claim predicts
that goTo at target index 3 wraps to 3 mod 3 = 0, equal to the current
index, hence no event and no state change. The JSX implementation instead
clamps 3 to 2, moves the active index to 2 and emits one event. -/
theorem c1_counterexample :
    (JSX.goTo ⟨3, 0⟩ 3).1.activeIndex = 2
  ∧ ((3 : Int) % 3 = 0)
  ∧ (JSX.goTo ⟨3, 0⟩ 3).2.length = 1 := by decide

/-- C1 amended: for N > 0, the TypeScript goTo maps a negative target to
N - 1, a target at or above N to 0, and an in-range target to itself,
agreeing with mod N exactly on targets in the interval from -1 to N; the
JSX goTo instead clamps the target into the range 0 to N - 1. In both
implementations the active index becomes the mapped index, and exactly
one transition event is emitted when the mapped index differs from the
current one while no event is emitted otherwise. -/
theorem c1_goTo_wrapping (N : Nat) (s : TS.CState) (t : JSX.JState)
    (i : Int) (c : String) (hN : 0 < N) :
    (i < 0 → TS.clampIndex N i = (N : Int) - 1)
  ∧ ((N : Int) ≤ i → TS.clampIndex N i = 0)
  ∧ (0 ≤ i → i < (N : Int) → TS.clampIndex N i = i)
  ∧ (-1 ≤ i → i ≤ (N : Int) → TS.clampIndex N i = i % (N : Int))
  ∧ (TS.goTo s i c).1 = ⟨s.total, TS.clampIndex s.total i⟩
  ∧ ((TS.goTo s i c).2 = if s.activeIndex ≠ TS.clampIndex s.total i then
        [TS.Ev.slideChange s.activeIndex (TS.clampIndex s.total i) c] else [])
  ∧ (i < 0 → JSX.clampIndex N i = 0)
  ∧ ((N : Int) ≤ i → JSX.clampIndex N i = (N : Int) - 1)
  ∧ (0 ≤ i → i < (N : Int) → JSX.clampIndex N i = i)
  ∧ (JSX.goTo t i).1 = ⟨t.total, JSX.clampIndex t.total i⟩
  ∧ ((JSX.goTo t i).2 = if JSX.clampIndex t.total i ≠ t.activeIndex then
        [⟨t.activeIndex, JSX.clampIndex t.total i, t.total⟩] else []) := by
  refine ⟨?_, ?_, ?_, ?_, TS.goTo_fst s i c, TS.goTo_snd s i c,
    ?_, ?_, ?_, JSX.jGoTo_fst t i, JSX.jGoTo_snd t i⟩
  · intro h
    unfold TS.clampIndex
    split_ifs
    omega
  · intro h
    unfold TS.clampIndex
    split_ifs <;> omega
  · intro h0 h1
    unfold TS.clampIndex
    split_ifs <;> omega
  · intro h0 h1
    have hcase : i = -1 ∨ i = (N : Int) ∨ (0 ≤ i ∧ i < (N : Int)) := by omega
    rcases hcase with h | h | ⟨ha, hb⟩
    · subst h
      have e1 : ((N : Int) - 1) % (N : Int) = (N : Int) - 1 :=
        Int.emod_eq_of_lt (by omega) (by omega)
      have e2 : ((N : Int) - 1 : Int) = -1 + (N : Int) * 1 := by ring
      have e3 : (-1 : Int) % (N : Int) = (N : Int) - 1 := by
        rw [← e1, e2, Int.add_mul_emod_self_left]
      rw [e3]
      unfold TS.clampIndex
      split_ifs <;> omega
    · subst h
      rw [Int.emod_self]
      unfold TS.clampIndex
      split_ifs <;> omega
    · rw [Int.emod_eq_of_lt ha hb]
      unfold TS.clampIndex
      split_ifs <;> omega
  · intro h
    unfold JSX.clampIndex
    omega
  · intro h
    unfold JSX.clampIndex
    omega
  · intro h0 h1
    unfold JSX.clampIndex
    omega

/-- C1 witness: the amended theorem applied at N = 3, target -1, current
index 0. -/
theorem c1_witness :
    TS.clampIndex 3 (-1) = 2 ∧ (TS.goTo ⟨3, 0⟩ (-1) "arrow").1 = ⟨3, 2⟩ := by
  have h := c1_goTo_wrapping 3 (⟨3, 0⟩ : TS.CState) (⟨3, 0⟩ : JSX.JState)
    (-1) "arrow" (by decide)
  refine ⟨?_, ?_⟩
  · exact h.1 (by decide)
  · rw [h.2.2.2.2.1]
    decide

/-- C2 counterexample: in the JSX implementation with N = 3 slides and
starting index 0, three applications of next leave the active index at 2,
not back at 0, because its clampIndex clamps at the last slide instead of
wrapping. -/
theorem c2_counterexample :
    (JSX.nextN ⟨3, 0⟩ 3).activeIndex = 2 ∧ ((2 : Int) ≠ 0) := by decide

/-- C2 amended: the cyclic property holds for the TypeScript
implementation: for every N > 0 and starting index in range, applying its
next exactly N times returns the active index to its original value. The
JSX implementation does not cycle, as its next clamps at the last
slide. -/
theorem c2_next_cycle (N : Nat) (i : Int) (hN : 0 < N) (h0 : 0 ≤ i)
    (h1 : i < (N : Int)) :
    (TS.nextN ⟨N, i⟩ N).activeIndex = i := by
  rw [TS.nextN_eq N hN N i h0 h1]
  show (i + (N : Int)) % (N : Int) = i
  rw [show i + (N : Int) = i + (N : Int) * 1 by ring, Int.add_mul_emod_self_left]
  exact Int.emod_eq_of_lt h0 h1

/-- C2 witness: the amended theorem applied at N = 3 and starting
index 1. -/
theorem c2_witness : (TS.nextN ⟨3, 1⟩ 3).activeIndex = 1 :=
  c2_next_cycle 3 1 (by decide) (by decide) (by decide)

/-- C3 counterexample: a release with dx = -50 and dy = 100 is
vertical-dominant, so the claim requires a snap back with no index change
and no navigation; the JSX pointer-up handler, which never reads a
vertical delta, commits a navigation anyway: from index 0 of 3 slides it
moves to index 1 and emits one event. -/
theorem c3_counterexample :
    (|(-50 : Int)| ≤ |(100 : Int)|)
  ∧ (JSX.pointerUp ⟨3, 0⟩ (-50)).1.activeIndex = 1
  ∧ (JSX.pointerUp ⟨3, 0⟩ (-50)).2.length = 1 := by decide

/-- C3 amended: the TypeScript touch implementation (threshold 30)
behaves exactly as the claim states, including treating a perfectly
diagonal drag as vertical; the JSX pointer implementation ignores the
vertical delta entirely and commits next or previous whenever the
magnitude of the horizontal delta exceeds 40, snapping back only when it
does not. -/
theorem c3_gesture (s : TS.CState) (t : JSX.JState) (dx dy : Int) :
    (|dx| > |dy| → |dx| > 30 → dx < 0 → TS.touchEnd s 30 dx dy = TS.next s "swipe")
  ∧ (|dx| > |dy| → |dx| > 30 → 0 ≤ dx → TS.touchEnd s 30 dx dy = TS.prev s "swipe")
  ∧ (¬(|dx| > |dy| ∧ |dx| > 30) → TS.touchEnd s 30 dx dy = (s, []))
  ∧ (|dx| = |dy| → TS.touchEnd s 30 dx dy = (s, []))
  ∧ (|dx| > 40 → dx < 0 → JSX.pointerUp t dx = JSX.next t)
  ∧ (|dx| > 40 → 0 ≤ dx → JSX.pointerUp t dx = JSX.prev t)
  ∧ (|dx| ≤ 40 → JSX.pointerUp t dx = (t, [])) := by
  refine ⟨?_, ?_, ?_, ?_, ?_, ?_, ?_⟩
  · intro h1 h2 h3
    unfold TS.touchEnd
    rw [if_pos ⟨h1, h2⟩, if_pos h3]
  · intro h1 h2 h3
    unfold TS.touchEnd
    rw [if_pos ⟨h1, h2⟩, if_neg (by omega)]
  · intro h
    unfold TS.touchEnd
    rw [if_neg h]
  · intro h
    unfold TS.touchEnd
    rw [if_neg (by omega)]
  · intro h1 h2
    unfold JSX.pointerUp
    rw [if_pos h1, if_pos h2]
  · intro h1 h2
    unfold JSX.pointerUp
    rw [if_pos h1, if_neg (by omega)]
  · intro h
    unfold JSX.pointerUp
    rw [if_neg (by omega)]

/-- C3 witness: the amended theorem applied with dx = -50, dy = 0 for the
TypeScript side. -/
theorem c3_witness :
    TS.touchEnd ⟨3, 0⟩ 30 (-50) 0 = TS.next ⟨3, 0⟩ "swipe" :=
  (c3_gesture ⟨3, 0⟩ ⟨3, 0⟩ (-50) 0).1 (by decide) (by decide) (by decide)

/-- C4 counterexample: marking the slide id a as failed twice from the
empty image-error state emits two error events in total, not exactly
one, because onImageError logs on every call. -/
theorem c4_counterexample :
    ((TS.onImageError ⟨[]⟩ "a").2
      ++ (TS.onImageError (TS.onImageError ⟨[]⟩ "a").1 "a").2).length = 2
  ∧ ((TS.onImageError ⟨[]⟩ "a").2
      ++ (TS.onImageError (TS.onImageError ⟨[]⟩ "a").1 "a").2).length ≠ 1 := by
  decide

/-- C4 amended: marking a slide image as failed is idempotent on the
failedImageIds state, but every call to onImageError emits exactly one
error event, so marking the same id twice emits two events; the code
performs no per-id deduplication of the error event. -/
theorem c4_mark_image_failed (s : TS.ImgState) (id : String) :
    (TS.onImageError (TS.onImageError s id).1 id).1 = (TS.onImageError s id).1
  ∧ (TS.onImageError s id).2 = [TS.Ev.imageError id] := by
  refine ⟨?_, rfl⟩
  unfold TS.onImageError TS.addError
  by_cases h : id ∈ s.failed
  · simp [h]
  · simp [h]

namespace TS

theorem runOps_range (total : Nat) (hN : 0 < total) :
    ∀ (ops : List NavOp) (i : Int), 0 ≤ i → i < (total : Int) →
      (runOps ⟨total, i⟩ ops).total = total
      ∧ 0 ≤ (runOps ⟨total, i⟩ ops).activeIndex
      ∧ (runOps ⟨total, i⟩ ops).activeIndex < (total : Int) := by
  intro ops
  induction ops with
  | nil =>
    intro i h0 h1
    exact ⟨rfl, h0, h1⟩
  | cons op rest ih =>
    intro i h0 h1
    cases op with
    | next =>
      have hstep : runOps (⟨total, i⟩ : CState) (NavOp.next :: rest)
          = runOps ⟨total, clampIndex total (i + 1)⟩ rest := by
        show runOps (next ⟨total, i⟩ "arrow").1 rest = _
        rw [next_fst]
      rw [hstep]
      have hr := clampIndex_range total (i + 1) hN
      exact ih _ hr.1 hr.2
    | prev =>
      have hstep : runOps (⟨total, i⟩ : CState) (NavOp.prev :: rest)
          = runOps ⟨total, clampIndex total (i - 1)⟩ rest := by
        show runOps (prev ⟨total, i⟩ "arrow").1 rest = _
        rw [prev, goTo_fst]
      rw [hstep]
      have hr := clampIndex_range total (i - 1) hN
      exact ih _ hr.1 hr.2

end TS

namespace JSX

theorem jRunOps_range (total : Nat) (hN : 0 < total) :
    ∀ (ops : List NavOp) (i : Int), 0 ≤ i → i < (total : Int) →
      (runOps ⟨total, i⟩ ops).total = total
      ∧ 0 ≤ (runOps ⟨total, i⟩ ops).activeIndex
      ∧ (runOps ⟨total, i⟩ ops).activeIndex < (total : Int) := by
  intro ops
  induction ops with
  | nil =>
    intro i h0 h1
    exact ⟨rfl, h0, h1⟩
  | cons op rest ih =>
    intro i h0 h1
    cases op with
    | next =>
      have hstep : runOps (⟨total, i⟩ : JState) (NavOp.next :: rest)
          = runOps ⟨total, clampIndex total (i + 1)⟩ rest := by
        show runOps (next ⟨total, i⟩).1 rest = _
        rw [next, jGoTo_fst]
      rw [hstep]
      have hr := jClampIndex_range total (i + 1) hN
      exact ih _ hr.1 hr.2
    | prev =>
      have hstep : runOps (⟨total, i⟩ : JState) (NavOp.prev :: rest)
          = runOps ⟨total, clampIndex total (i - 1)⟩ rest := by
        show runOps (prev ⟨total, i⟩).1 rest = _
        rw [prev, jGoTo_fst]
      rw [hstep]
      have hr := jClampIndex_range total (i - 1) hN
      exact ih _ hr.1 hr.2

end JSX

/-- C5: for every slide count N > 0, every starting index in range and
every finite sequence of next and previous calls, the active index stays
inside the range 0 to N - 1 in both carousel implementations. Since
every prefix of a call sequence is itself a call sequence, this covers
the index after each intermediate call as well. -/
theorem c5_index_invariant (N : Nat) (i : Int) (ops : List NavOp)
    (hN : 0 < N) (h0 : 0 ≤ i) (h1 : i < (N : Int)) :
    (0 ≤ (TS.runOps ⟨N, i⟩ ops).activeIndex
      ∧ (TS.runOps ⟨N, i⟩ ops).activeIndex < (N : Int))
  ∧ (0 ≤ (JSX.runOps ⟨N, i⟩ ops).activeIndex
      ∧ (JSX.runOps ⟨N, i⟩ ops).activeIndex < (N : Int)) := by
  have hts := TS.runOps_range N hN ops i h0 h1
  have hjs := JSX.jRunOps_range N hN ops i h0 h1
  exact ⟨⟨hts.2.1, hts.2.2⟩, ⟨hjs.2.1, hjs.2.2⟩⟩

/-- C5 witness: the invariant applied at N = 3, start index 2, and the
sequence next, next, prev. -/
theorem c5_witness :
    (0 ≤ (TS.runOps ⟨3, 2⟩ [NavOp.next, NavOp.next, NavOp.prev]).activeIndex
      ∧ (TS.runOps ⟨3, 2⟩ [NavOp.next, NavOp.next, NavOp.prev]).activeIndex < (3 : Int))
  ∧ (0 ≤ (JSX.runOps ⟨3, 2⟩ [NavOp.next, NavOp.next, NavOp.prev]).activeIndex
      ∧ (JSX.runOps ⟨3, 2⟩ [NavOp.next, NavOp.next, NavOp.prev]).activeIndex < (3 : Int)) :=
  c5_index_invariant 3 2 [NavOp.next, NavOp.next, NavOp.prev]
    (by decide) (by decide) (by decide)

/-- C6: construction of the TypeScript carousel fails with an
InvalidConfiguration error on an empty slide collection, and on any
slide collection when autoplay is enabled with intervalMs = -5; and from
every successfully constructed state, goTo is total and keeps the active
index inside the valid range, tolerating arbitrary out-of-range targets
by wrapping instead of failing. -/
theorem c6_construction (slides : List TS.Slide) (ap : TS.AutoplayProp)
    (st : TS.CState) (i : Int) (c : String)
    (hok : TS.constructCarousel slides ap = Except.ok st) :
    (∀ ap2 : TS.AutoplayProp, TS.constructCarousel [] ap2 =
      Except.error (TS.CarouselError.invalidConfiguration
        "Carousel: \"slides\" is required and must be a non-empty array."))
  ∧ (∀ sl : List TS.Slide, sl ≠ [] →
      TS.constructCarousel sl ⟨some true, some (-5)⟩ =
      Except.error (TS.CarouselError.invalidConfiguration
        "Carousel: \"autoplay.intervalMs\" must be > 0 when autoplay is enabled."))
  ∧ 0 ≤ (TS.goTo st i c).1.activeIndex
  ∧ (TS.goTo st i c).1.activeIndex < (st.total : Int) := by
  have hst : st.total = slides.length ∧ 0 < slides.length := by
    unfold TS.constructCarousel at hok
    split_ifs at hok with h1 h2
    cases hok
    exact ⟨rfl, Nat.pos_of_ne_zero h1⟩
  refine ⟨?_, ?_, ?_, ?_⟩
  · intro ap2
    rfl
  · intro sl hsl
    unfold TS.constructCarousel
    rw [if_neg (fun h => hsl (List.length_eq_zero.mp h)), if_pos (by decide)]
  · rw [TS.goTo_fst]
    exact (TS.clampIndex_range st.total i (by omega)).1
  · rw [TS.goTo_fst]
    exact (TS.clampIndex_range st.total i (by omega)).2

/-- C6 witness: the theorem applied to the carousel constructed from one
slide with an absent autoplay configuration, probing goTo at the
out-of-range target 5. -/
theorem c6_witness :
    0 ≤ (TS.goTo ⟨1, 0⟩ 5 "dot").1.activeIndex
  ∧ (TS.goTo ⟨1, 0⟩ 5 "dot").1.activeIndex < ((1 : Nat) : Int) := by
  have h := c6_construction [⟨"a", "t", none, "img", "alt"⟩] ⟨none, none⟩
    ⟨1, 0⟩ 5 "dot" rfl
  exact ⟨h.2.2.1, h.2.2.2⟩

/-- C7 counterexample: with N = 3 slides and requested start index 5, the
JSX useState initialiser yields 0, while the clamp of 5 into the range 0
to 2 is 2. -/
theorem c7_counterexample :
    JSX.initActiveIndex 3 5 = 0
  ∧ max 0 (min 5 ((3 : Int) - 1)) = 2
  ∧ ((0 : Int) ≠ 2) := by decide

/-- C7 amended: for every N > 0, the initial active index equals the
requested start index when that index already lies in the range 0 to
N - 1, and 0 in every other case (it is not clamped to N - 1); the
result always lies in range. -/
theorem c7_init_index (N : Nat) (start : Int) (hN : 0 < N) :
    (0 ≤ start → start < (N : Int) → JSX.initActiveIndex N start = start)
  ∧ ((start < 0 ∨ (N : Int) ≤ start) → JSX.initActiveIndex N start = 0)
  ∧ 0 ≤ JSX.initActiveIndex N start
  ∧ JSX.initActiveIndex N start < (N : Int) := by
  refine ⟨?_, ?_, ?_, ?_⟩
  · intro h0 h1
    unfold JSX.initActiveIndex
    rw [if_pos ⟨h0, h1⟩]
  · intro h
    unfold JSX.initActiveIndex
    rw [if_neg (by omega)]
  · unfold JSX.initActiveIndex
    split_ifs with h
    · exact h.1
    · exact le_rfl
  · unfold JSX.initActiveIndex
    split_ifs with h
    · exact h.2
    · omega

/-- C7 witness: the amended theorem applied at N = 3 and requested start
index 5. -/
theorem c7_witness : JSX.initActiveIndex 3 5 = 0 :=
  (c7_init_index 3 5 (by decide)).2.1 (Or.inr (by decide))

/-- C8: after unmount (which runs the effect cleanup) no timeout is
pending, and an elapse of the originally scheduled interval emits no
further event and leaves the navigation state untouched; a pending
timeout fires next with cause auto; the effect arms no timeout when the
effective enablement is false; and effective enablement is the autoplay
enabled flag conjoined with the negation of the reduced-motion
preference. -/
theorem c8_autoplay_lifecycle (s : Autoplay.St) (a r : Bool) :
    ((Autoplay.elapse (Autoplay.unmount s)).events = s.events
      ∧ (Autoplay.elapse (Autoplay.unmount s)).nav = s.nav
      ∧ (Autoplay.unmount s).timer = false)
  ∧ (s.timer = true →
      (Autoplay.elapse s).nav = (TS.next s.nav "auto").1
        ∧ (Autoplay.elapse s).events = s.events ++ (TS.next s.nav "auto").2)
  ∧ (s.cfgEnabled = false → (Autoplay.effect (Autoplay.cleanup s)).timer = false)
  ∧ (Autoplay.effectiveEnabled a r = true ↔ (a = true ∧ r = false)) := by
  refine ⟨⟨?_, ?_, rfl⟩, ?_, ?_, ?_⟩
  · simp [Autoplay.elapse, Autoplay.unmount, Autoplay.cleanup]
  · simp [Autoplay.elapse, Autoplay.unmount, Autoplay.cleanup]
  · intro h
    simp [Autoplay.elapse, h]
  · intro h
    simp [Autoplay.effect, Autoplay.cleanup, h]
  · cases a <;> cases r <;> decide

/-- C8 witness: the theorem applied to an effectively enabled, unpaused
state with a pending timeout over three slides at index 0. -/
theorem c8_witness :
    (Autoplay.elapse (⟨true, false, true, ⟨3, 0⟩, []⟩ : Autoplay.St)).nav
      = (TS.next ⟨3, 0⟩ "auto").1 :=
  ((c8_autoplay_lifecycle ⟨true, false, true, ⟨3, 0⟩, []⟩ true false).2.1 rfl).1

/-- C9 counterexample: a goTo transition from index 0 to 1 over three
slides does not complete normally when the console inside logUIEvent
throws: the exception propagates out of the sink and aborts the state
update, because logUIEvent has no try/catch. -/
theorem c9_counterexample :
    TS.goToE ⟨3, 0⟩ 1 "dot" true = Except.error "console.log threw" := rfl

/-- C9 amended: the JSX audit sink logAuditEvent swallows a failure of
its console.info call (its catch block absorbs it), but the TypeScript
sink logUIEvent propagates any console.log failure to its caller, so a
state transition that must log aborts with the sink exception; when the
sink does not fail, the transition agrees with the pure model. -/
theorem c9_sink_propagation (s : TS.CState) (i : Int) (c : String)
    (infoFails : Bool) :
    AuditJsx.logAuditEvent infoFails false = Except.ok ()
  ∧ (∀ n a : String, AuditTs.logUIEvent true n a = Except.error "console.log threw")
  ∧ (s.activeIndex ≠ TS.clampIndex s.total i →
      TS.goToE s i c true = Except.error "console.log threw")
  ∧ TS.goToE s i c false = Except.ok (TS.goTo s i c).1 := by
  refine ⟨?_, fun n a => rfl, ?_, ?_⟩
  · cases infoFails <;> rfl
  · intro h
    simp only [TS.goToE]
    rw [if_pos h]
    rfl
  · by_cases h : s.activeIndex = TS.clampIndex s.total i
    · simp [TS.goToE, TS.goTo, h]
    · simp [TS.goToE, TS.goTo, AuditTs.logUIEvent, h]

/-- C9 witness: the amended theorem applied with two slides, target
index 1 and a failing console. -/
theorem c9_witness :
    TS.goToE ⟨2, 0⟩ 1 "kbd" true = Except.error "console.log threw" :=
  (c9_sink_propagation ⟨2, 0⟩ 1 "kbd" true).2.2.1 (by decide)

namespace SlidesJs

theorem jsTrim_ne_empty (t : String) (h : jsTrim t ≠ "") : t ≠ "" := by
  intro ht
  subst ht
  exact h rfl

theorem strTest_some (v : JSVal) (t : String) (h : strTest v = some t) :
    jsTrim t ≠ "" := by
  cases v <;> simp [strTest] at h
  rcases h with ⟨hc, rfl⟩
  exact hc

theorem slideDefault_ne (i : Nat) : ("slide-" ++ toString i : String) ≠ "" := by
  intro h
  have hd := congrArg String.data h
  rw [String.data_append] at hd
  exact absurd (List.append_eq_nil.mp hd).1 (by decide)

theorem append_image_ne (x : String) : (x ++ " image" : String) ≠ "" := by
  intro h
  have hd := congrArg String.data h
  rw [String.data_append] at hd
  exact absurd (List.append_eq_nil.mp hd).2 (by decide)

theorem elim_trim_ne_empty (o : Option String) (d : String) (hd : d ≠ "")
    (hf : ∀ t, o = some t → jsTrim t ≠ "") :
    o.elim d (fun t => jsTrim t) ≠ "" := by
  cases o with
  | none => exact hd
  | some t => exact hf t rfl

theorem elim_id_ne_empty (o : Option String) (d : String) (hd : d ≠ "")
    (hf : ∀ t, o = some t → t ≠ "") :
    o.elim d (fun t => t) ≠ "" := by
  cases o with
  | none => exact hd
  | some t => exact hf t rfl

theorem mkSlide_fields (i : Nat) (v : JSVal) :
    (mkSlide i v).id ≠ "" ∧ (mkSlide i v).title ≠ ""
  ∧ (mkSlide i v).description ≠ "" ∧ (mkSlide i v).image ≠ ""
  ∧ (mkSlide i v).alt ≠ "" := by
  refine ⟨?_, ?_, ?_, ?_, ?_⟩
  · show (strTest (getField v "id")).elim ("slide-" ++ toString i) (fun t => t) ≠ ""
    exact elim_id_ne_empty _ _ (slideDefault_ne i)
      (fun t ht => jsTrim_ne_empty t (strTest_some _ t ht))
  · show (strTest (getField v "title")).elim "Untitled" (fun t => jsTrim t) ≠ ""
    exact elim_trim_ne_empty _ _ (by decide) (fun t ht => strTest_some _ t ht)
  · show (strTest (getField v "description")).elim
        "No description provided." (fun t => jsTrim t) ≠ ""
    exact elim_trim_ne_empty _ _ (by decide) (fun t ht => strTest_some _ t ht)
  · show (strTest (getField v "image")).elim
        "/images/placeholder.jpg" (fun t => jsTrim t) ≠ ""
    exact elim_trim_ne_empty _ _ (by decide) (fun t ht => strTest_some _ t ht)
  · show (strTest (getField v "alt")).elim
        ((strTest (getField v "title")).elim "Untitled" (fun t => jsTrim t) ++ " image")
        (fun t => jsTrim t) ≠ ""
    exact elim_trim_ne_empty _ _ (append_image_ne _)
      (fun t ht => strTest_some _ t ht)

theorem mapWithIndex_length (f : Nat → JSVal → SlideRec) :
    ∀ (l : List JSVal) (i : Nat), (mapWithIndex f i l).length = l.length := by
  intro l
  induction l with
  | nil => intro i; rfl
  | cons v vs ih => intro i; simp [mapWithIndex, ih]

theorem mapWithIndex_mem (f : Nat → JSVal → SlideRec) :
    ∀ (l : List JSVal) (i : Nat) (r : SlideRec),
      r ∈ mapWithIndex f i l → ∃ j v, v ∈ l ∧ r = f j v := by
  intro l
  induction l with
  | nil => intro i r h; cases h
  | cons v vs ih =>
    intro i r h
    rcases List.mem_cons.mp h with h | h
    · exact ⟨i, v, List.mem_cons_self v vs, h⟩
    · rcases ih (i + 1) r h with ⟨j, w, hw, hr⟩
      exact ⟨j, w, List.mem_cons_of_mem v hw, hr⟩

end SlidesJs

/-- C10: the sanitizer maps the empty array to the empty array, so it
does not guarantee a non-empty slide collection; the single fallback
slide appears only for non-array inputs; filtering drops exactly the
elements that are not truthy object-typed values; and every slide in the
result has non-empty id, title, description, image and alt fields. -/
theorem c10_validateSlides :
    SlidesJs.validateSlides (SlidesJs.JSVal.arr []) = []
  ∧ (∀ v : SlidesJs.JSVal, SlidesJs.isArr v = false →
      SlidesJs.validateSlides v = [SlidesJs.fallback])
  ∧ (∀ l : List SlidesJs.JSVal,
      (SlidesJs.validateSlides (SlidesJs.JSVal.arr l)).length
        = (l.filter SlidesJs.keep).length)
  ∧ (∀ (l : List SlidesJs.JSVal) (r : SlidesJs.SlideRec),
      r ∈ SlidesJs.validateSlides (SlidesJs.JSVal.arr l) →
      r.id ≠ "" ∧ r.title ≠ "" ∧ r.description ≠ "" ∧ r.image ≠ ""
        ∧ r.alt ≠ "") := by
  refine ⟨rfl, ?_, ?_, ?_⟩
  · intro v hv
    cases v with
    | arr l => simp [SlidesJs.isArr] at hv
    | null => rfl
    | undefined => rfl
    | bool b => rfl
    | num n => rfl
    | str s => rfl
    | obj f => rfl
  · intro l
    exact SlidesJs.mapWithIndex_length SlidesJs.mkSlide (l.filter SlidesJs.keep) 0
  · intro l r hr
    rcases SlidesJs.mapWithIndex_mem SlidesJs.mkSlide (l.filter SlidesJs.keep) 0 r hr
      with ⟨j, v, hv, rfl⟩
    exact SlidesJs.mkSlide_fields j v

/-- C10 witness: the theorem applied to a non-array input and to the
array containing one empty object, whose sanitized slide gets the
default id. -/
theorem c10_witness :
    SlidesJs.validateSlides (SlidesJs.JSVal.str "oops") = [SlidesJs.fallback]
  ∧ (SlidesJs.mkSlide 0 (SlidesJs.JSVal.obj [])).id ≠ "" := by
  constructor
  · exact c10_validateSlides.2.1 (SlidesJs.JSVal.str "oops") rfl
  · exact (c10_validateSlides.2.2.2 [SlidesJs.JSVal.obj []]
      (SlidesJs.mkSlide 0 (SlidesJs.JSVal.obj [])) (by decide)).1
